import Mathlib

/-!
Verification of the KPI extraction-and-validation pipeline
(`src/utlis/validation_utils.py` and `src/o3/kpi_agent.py`).

The embedding models Python values flowing through the validator.  Machine
floats are modelled by exact rationals (`ℚ`): the validator only ever parses
decimal strings, subtracts, takes absolute values and compares against a
tolerance, and these operations are faithfully mirrored on `ℚ`.  A Python
float cell is carried by the string `str()` would render for it, since the
validator consumes cells through `str(...)`.  A parse failure (Python
`ValueError` from `float(...)`) is `none`; `math.nan` results are also
`none`, which yields the same observable validator verdicts.
-/

set_option autoImplicit false

namespace XlExtraction

/-- Model of a Python value as stored in a spreadsheet cell or an extracted
record field: a `str`, an `int`, a `float` (carried by its `str()` rendering),
or any other object. -/
inductive PyVal where
  | pyStr (s : String)
  | pyInt (n : Int)
  | pyFloat (rendered : String)
  | pyOther
  deriving DecidableEq, Repr

open PyVal

/-- A sheet cell: `none` models Python `None` (an empty cell). -/
abbrev Cell := Option PyVal

/-- A sheet is a grid of cells, rows listed top to bottom (0-based here;
openpyxl's 1-based access is adapted explicitly where the source uses it). -/
abbrev Sheet := List (List Cell)

/-- Characters of a string with surrounding whitespace removed, modelling
Python `str.strip()` (also applied by `float(...)` to its argument). -/
def trimChars (l : List Char) : List Char :=
  ((l.dropWhile Char.isWhitespace).reverse.dropWhile Char.isWhitespace).reverse

/-- Python `s.strip()`. -/
def trimStr (s : String) : String := String.mk (trimChars s.data)

/-- Python `s.replace(",", "")`: every comma removed. -/
def stripCommas (s : String) : String := String.mk (s.data.filter (fun c => c ≠ ','))

/-- Python `s.replace("$", "")`: every dollar sign removed. -/
def stripDollars (s : String) : String := String.mk (s.data.filter (fun c => c ≠ '$'))

/-- Python `s.lower()` (ASCII case folding suffices for the strings compared
here). -/
def lowerStr (s : String) : String := String.mk (s.data.map Char.toLower)

/-- Digit list to the natural number it denotes. -/
def digitsToNat (l : List Char) : Nat :=
  l.foldl (fun a c => a * 10 + (c.toNat - 48)) 0

/-- Optional exponent suffix of a float literal (`e`/`E`, optional sign,
digits).  `some 0` when the remainder is empty, `none` when the remainder is
not a valid exponent. -/
def parseExpSuffix (l : List Char) : Option Int :=
  match l with
  | [] => some 0
  | c :: r =>
    if c = 'e' ∨ c = 'E' then
      let signAndRest : Int × List Char :=
        match r with
        | '+' :: t => (1, t)
        | '-' :: t => (-1, t)
        | _ => (1, r)
      let ds := signAndRest.2.takeWhile Char.isDigit
      let rest := signAndRest.2.dropWhile Char.isDigit
      if ds.isEmpty ∨ ¬ rest.isEmpty then none
      else some (signAndRest.1 * (digitsToNat ds : Int))
    else none

/-- Model of Python `float(s)` on finite decimal literals: optional sign,
digits with an optional fractional part, optional exponent, surrounding
whitespace ignored.  `none` models `ValueError` (and the non-finite literals
`nan`/`inf`, whose validator verdicts coincide with the parse-failure path).
The rational is assembled with `mkRat` so that the result is a concrete
normalized numerator/denominator pair. -/
def parseDecimal (s : String) : Option ℚ :=
  let l := trimChars s.data
  let signAndRest : Bool × List Char :=
    match l with
    | '+' :: t => (false, t)
    | '-' :: t => (true, t)
    | _ => (false, l)
  let l1 := signAndRest.2
  let intD := l1.takeWhile Char.isDigit
  let l2 := l1.dropWhile Char.isDigit
  let fracAndRest : List Char × List Char :=
    match l2 with
    | '.' :: t => (t.takeWhile Char.isDigit, t.dropWhile Char.isDigit)
    | _ => ([], l2)
  let fracD := fracAndRest.1
  if intD.isEmpty ∧ fracD.isEmpty then none
  else
    match parseExpSuffix fracAndRest.2 with
    | none => none
    | some e =>
      let num0 : Nat := digitsToNat intD * 10 ^ fracD.length + digitsToNat fracD
      let numDen : Nat × Nat :=
        if 0 ≤ e then (num0 * 10 ^ e.toNat, 10 ^ fracD.length)
        else (num0, 10 ^ fracD.length * 10 ^ (-e).toNat)
      let signedNum : Int := if signAndRest.1 then -(numDen.1 : Int) else (numDen.1 : Int)
      some (mkRat signedNum numDen.2)

/-- Exact value of `abs(float(x) - float(y))`, computed on the normalized
numerator/denominator representation so that it evaluates by `decide`.
`ratAbsDiff_eq_abs` below shows it is the mathematical `|a - b|`. -/
def ratAbsDiff (a b : ℚ) : ℚ :=
  mkRat (Int.natAbs (a.num * (b.den : Int) - b.num * (a.den : Int))) (a.den * b.den)

example : parseDecimal "12.5" = some (mkRat 25 2) := by decide
example : parseDecimal "12.5%" = none := by decide
example : parseDecimal "0.000000001" = some (mkRat 1 1000000000) := by decide
example : parseDecimal " -3 " = some (mkRat (-3) 1) := by decide
example : parseDecimal "1e2" = some (mkRat 100 1) := by decide
example : parseDecimal "" = none := by decide
example : parseDecimal "1." = some (mkRat 1 1) := by decide
example : parseDecimal ".5" = some (mkRat 1 2) := by decide
example : parseDecimal "." = none := by decide
example : parseDecimal "1.2.3" = none := by decide

/-- The computational absolute difference agrees with `|a - b|`. -/
theorem ratAbsDiff_eq_abs (a b : ℚ) : ratAbsDiff a b = |a - b| := by
  rw [ratAbsDiff, Rat.mkRat_eq_div, abs_sub_comm]
  conv_rhs => rw [← Rat.num_div_den a, ← Rat.num_div_den b]
  rw [div_sub_div _ _ (by positivity) (by positivity), abs_div]
  push_cast
  rw [abs_of_pos (by positivity : (0:ℚ) < (b.den:ℚ) * (a.den:ℚ)), abs_sub_comm]
  ring_nf

/-! ## Extracted-record model and Tier-1 structural validation
(`validate_kpi_data`, `src/utlis/validation_utils.py`). -/

/-- One extracted KPI dict as handed to `validate_kpi_data`: each field is
`kpi_data.get(...)`, so `none` models an absent key (Python `None`). -/
structure KpiData where
  kpi : Option PyVal
  value : Option PyVal
  period : Option PyVal
  sourceFile : Option PyVal := none
  rowNumber : Option PyVal
  columnNumber : Option PyVal
  deriving DecidableEq, Repr

/-- One entry of the validator report: the record plus
`validation_status`, `notes` and the `validated` flag. -/
structure ValidatedKpi where
  record : KpiData
  validationStatus : String
  notes : List String
  validated : Bool
  deriving DecidableEq, Repr

/-- The value `validate_kpi_data` returns for one file. -/
structure ValidationReport where
  validatedKpis : List ValidatedKpi
  unextractedNumbers : List String
  deriving DecidableEq, Repr

/-- Tier-1 check on `kpi`/`period`: fails unless the field is a string that
is non-blank after stripping (`not x or not isinstance(x, str) or not
x.strip()`). -/
def strFieldBad (v : Option PyVal) : Bool :=
  match v with
  | some (pyStr s) => trimStr s == ""
  | _ => true

/-- Tier-1 check on `value`: `None` and non-numbers fail; a string fails
unless `float(value.replace(",", ""))` succeeds.  Returns the note the
source appends on failure. -/
def valueNote (v : Option PyVal) : Option String :=
  match v with
  | none => some "Value is missing."
  | some (pyStr s) =>
    if (parseDecimal (stripCommas s)).isSome then none
    else some "Value is not a valid number format."
  | some (pyInt _) => none
  | some (pyFloat _) => none
  | some pyOther => some "Value is not a valid number format."

/-- Tier-1 check on `row_number`/`column_number`: fails unless the field is
an `int` greater than zero. -/
def posIntBad (v : Option PyVal) : Bool :=
  match v with
  | some (pyInt n) => decide (n ≤ 0)
  | _ => true

/-- Notes accumulated by the five Tier-1 structural checks, in source
order. -/
def tier1Notes (k : KpiData) : List String :=
  (if strFieldBad k.kpi then ["KPI name is missing or invalid."] else [])
    ++ (match valueNote k.value with | some m => [m] | none => [])
    ++ (if strFieldBad k.period then ["Period is missing or invalid."] else [])
    ++ (if posIntBad k.rowNumber then ["Row number is missing or invalid."] else [])
    ++ (if posIntBad k.columnNumber then ["Column number is missing or invalid."] else [])

/-- The `validation_status` after Tier 1: `INVALID_STRUCTURE` exactly when
some check appended a note. -/
def tier1Status (k : KpiData) : String :=
  if tier1Notes k == [] then "Valid" else "INVALID_STRUCTURE"

/-- The report entry emitted immediately for a structurally invalid
record. -/
def mkInvalidEntry (k : KpiData) : ValidatedKpi :=
  { record := k
    validationStatus := "INVALID_STRUCTURE"
    notes := tier1Notes k
    validated := false }

/-- The Tier-1 loop: one pass over the extracted records that emits
structurally invalid ones into the report (in input order) and collects the
structurally valid ones for Tier 2 (in input order). -/
def tier1Pass : List KpiData → List ValidatedKpi × List KpiData
  | [] => ([], [])
  | k :: rest =>
    let tail := tier1Pass rest
    if tier1Status k == "INVALID_STRUCTURE" then (mkInvalidEntry k :: tail.1, tail.2)
    else (tail.1, k :: tail.2)

/-! ## Tier-2 cross-reference validation. -/

/-- Python `str(...)` on a cell or field value.  A `pyFloat` renders as the
string it carries; `str(int)` is its decimal rendering. -/
def pyStrRepr : PyVal → String
  | pyStr s => s
  | pyInt n => toString n
  | pyFloat r => r
  | pyOther => "<object>"

/-- Python `str(...)` where the value may be `None`. -/
def optStrRepr : Option PyVal → String
  | none => "None"
  | some v => pyStrRepr v

/-- The extracted value as compared in Tier 2:
`str(kpi_value).replace(",", "")`. -/
def extractedValueStr (k : KpiData) : String := stripCommas (optStrRepr k.value)

/-- The claimed row as the natural number used for the cell lookup (Tier 2
only runs on records whose `row_number` is a positive `int`). -/
def rowNatOf (k : KpiData) : Nat :=
  match k.rowNumber with
  | some (pyInt n) => n.toNat
  | _ => 0

/-- The claimed column as the natural number used for the cell lookup. -/
def colNatOf (k : KpiData) : Nat :=
  match k.columnNumber with
  | some (pyInt n) => n.toNat
  | _ => 0

/-- Bounds-checked access to the 1-based cell address `(r, c)` of a sheet:
`none` when no cell exists at that address (the access raises and the
`except ... pass` moves on to the next sheet), `some cell` when it exists,
where `cell = none` models an empty (`None`) cell. -/
def cellAt (sheet : Sheet) (r c : Nat) : Option Cell :=
  match sheet.get? (r - 1) with
  | none => none
  | some rowCells => rowCells.get? (c - 1)

/-- The linear scan over the file sheets from the Tier-2 loop: the first
sheet whose cell at the claimed address exists decides the outcome
(`break`), sheets where the access fails are skipped (`pass`). -/
def tier2Lookup (r c : Nat) : List Sheet → Option Cell
  | [] => none
  | s :: rest =>
    match cellAt s r c with
    | none => tier2Lookup r c rest
    | some cell => some cell

/-- A single-quote character, used inside the verbatim note texts. -/
def sq : String := "\x27"

/-- The note appended on a `VALUE_MISMATCH`. -/
def mismatchNote (ss es : String) (r c : Nat) : String :=
  "Value mismatch. Expected: " ++ sq ++ ss ++ sq ++ ", Got: " ++ sq ++ es ++ sq
    ++ " at R" ++ toString r ++ "C" ++ toString c ++ "."

/-- The absolute numeric tolerance `1e-9` of the Tier-2 comparison. -/
def tol9 : ℚ := mkRat 1 1000000000

/-- Comparison of the extracted value against a found, non-empty source
cell: exact string equality after comma-stripping wins, otherwise both
strings are parsed as floats and compared within `1e-9`; a parse failure is
a mismatch. -/
def compareCell (k : KpiData) (v : PyVal) : ValidatedKpi :=
  let es := extractedValueStr k
  let ss := stripCommas (pyStrRepr v)
  if es == ss then
    { record := k, validationStatus := "Valid", notes := [], validated := true }
  else
    match parseDecimal es, parseDecimal ss with
    | some a, some b =>
      if ratAbsDiff a b < tol9 then
        { record := k, validationStatus := "Valid", notes := [], validated := true }
      else
        { record := k, validationStatus := "VALUE_MISMATCH"
          notes := [mismatchNote ss es (rowNatOf k) (colNatOf k)], validated := false }
    | _, _ =>
      { record := k, validationStatus := "VALUE_MISMATCH"
        notes := [mismatchNote ss es (rowNatOf k) (colNatOf k)], validated := false }

/-- The Tier-2 outcome for one structurally valid record. -/
def tier2Entry (sheets : List Sheet) (k : KpiData) : ValidatedKpi :=
  match tier2Lookup (rowNatOf k) (colNatOf k) sheets with
  | some (some v) => compareCell k v
  | some none =>
    { record := k, validationStatus := "VALUE_MISSING_IN_SOURCE"
      notes := ["Value cell is empty in source Excel at R" ++ toString (rowNatOf k)
                  ++ "C" ++ toString (colNatOf k) ++ "."]
      validated := false }
  | none =>
    { record := k, validationStatus := "LOCATION_NOT_FOUND_IN_SOURCE"
      notes := ["Could not find value at R" ++ toString (rowNatOf k) ++ "C"
                  ++ toString (colNatOf k) ++ " in any sheet/file of the source."]
      validated := false }

/-- The entry produced for a pending structurally valid record when the
source file cannot be loaded. -/
def loadErrorEntry (e : String) (k : KpiData) : ValidatedKpi :=
  { record := k
    validationStatus := "FILE_LOAD_ERROR"
    notes := ["Could not load Excel file: " ++ e]
    validated := false }

/-! ## Unextracted-numbers scan (`validate_kpi_data`, lines 139-195).
The Excel and CSV branches share the same structure; the scan below follows
the Excel branch, with openpyxl's 1-based row accessor `sheet[n]` made
explicit as `sheetRow1`. -/

/-- A row contains the target label when some cell is a truthy string whose
lowercasing equals the lowercased target (`cell.value and
isinstance(cell.value, str) and target.lower() == str(cell.value).lower()`). -/
def rowHasLabel (row : List Cell) (target : String) : Bool :=
  row.any fun c =>
    match c with
    | some (pyStr s) => (s != "") && (lowerStr s == lowerStr target)
    | _ => false

/-- Helper for `findLabelRowIdx`: scan rows from index `i` upward. -/
def findLabelRowIdxAux (target : String) : Nat → Sheet → Option Nat
  | _, [] => none
  | i, row :: rest =>
    if rowHasLabel row target then some i else findLabelRowIdxAux target (i + 1) rest

/-- Index (0-based, as produced by `enumerate(sheet.iter_rows())`) of the
first row containing the target label. -/
def findLabelRowIdx (sheet : Sheet) (target : String) : Option Nat :=
  findLabelRowIdxAux target 0 sheet

/-- openpyxl's `sheet[n]`: the row at the 1-based index `n`. -/
def sheetRow1 (sheet : Sheet) (n : Nat) : List Cell :=
  (sheet.get? (n - 1)).getD []

/-- The row at a 0-based index. -/
def rowAt0 (sheet : Sheet) (i : Nat) : List Cell :=
  (sheet.get? i).getD []

/-- Python regex `^\d+(\.\d+)?$` used to decide whether a cleaned string
cell looks numeric. -/
def matchesNumPattern (s : String) : Bool :=
  let intD := s.data.takeWhile Char.isDigit
  let rest := s.data.dropWhile Char.isDigit
  (!intD.isEmpty) &&
    (rest.isEmpty ||
      (match rest with
       | '.' :: fr => (!fr.isEmpty) && fr.all Char.isDigit
       | _ => false))

/-- The potential values harvested from one row: numeric cells via
`str(value).replace(",", "")`, string cells via the cleaned string when it
matches the numeric pattern. -/
def numericCellStrings (row : List Cell) : List String :=
  row.filterMap fun c =>
    match c with
    | some (pyInt n) => some (stripCommas (toString n))
    | some (pyFloat r) => some (stripCommas r)
    | some (pyStr s) =>
      let cl := stripCommas s
      if matchesNumPattern cl then some cl else none
    | _ => none

/-- The potential values contributed by one target KPI on one sheet: the
row `sheet[kpi_row_index + 1]` is scanned when the label was found at the
0-based index `kpi_row_index`. -/
def scanTargetInSheet (sheet : Sheet) (target : String) : List String :=
  match findLabelRowIdx sheet target with
  | none => []
  | some i => numericCellStrings (sheetRow1 sheet (i + 1))

/-- Python `set.add`: membership-preserving insert (iteration order of the
model is insertion order; the claims only use membership). -/
def setInsert (acc : List String) (s : String) : List String :=
  if s ∈ acc then acc else acc ++ [s]

/-- Add every harvested string to the accumulated set. -/
def addAll (acc : List String) (xs : List String) : List String :=
  xs.foldl setInsert acc

/-- The full `potential_unextracted_kpi_values` set: every sheet, every
target KPI. -/
def potentialValues (sheets : List Sheet) (targets : List String) : List String :=
  sheets.foldl
    (fun acc sheet => targets.foldl (fun a t => addAll a (scanTargetInSheet sheet t)) acc)
    []

/-- The comma-stripped renderings of all extracted values with a non-`None`
value, used to filter the potential values. -/
def extractedValueStrs (records : List KpiData) : List String :=
  records.filterMap fun k =>
    match k.value with
    | none => none
    | some v => some (stripCommas (pyStrRepr v))

/-! ## The whole of `validate_kpi_data`.
The workbook/CSV loading outcome is a parameter: `Except.error e` models the
load raising with message `e`, `Except.ok sheets` the loaded sheet list. -/

/-- `validate_kpi_data`: Tier-1 pass, early return when nothing is
structurally valid, load-failure marking, unextracted-numbers scan, Tier-2
cross-reference of each structurally valid record, and report assembly. -/
def validateKpiData (records : List KpiData)
    (loadResult : Except String (List Sheet)) (targets : List String) :
    ValidationReport :=
  match tier1Pass records with
  | (vs, svs) =>
    if svs.isEmpty then { validatedKpis := vs, unextractedNumbers := [] }
    else
      match loadResult with
      | Except.error e =>
        { validatedKpis := vs ++ svs.map (loadErrorEntry e), unextractedNumbers := [] }
      | Except.ok sheets =>
        { validatedKpis := vs ++ svs.map (tier2Entry sheets)
          unextractedNumbers :=
            (potentialValues sheets targets).filter
              (fun n => !((extractedValueStrs records).contains n)) }

/-! ## Chunker (`orient_and_chunk_all`, `src/o3/kpi_agent.py`).
The loop `for start in range(0, len(df), chunk_rows): df.iloc[start:start +
chunk_rows]` slices the table into consecutive windows; a row is a list of
rendered cells. -/

/-- Row windows of size `step` (the final one may be shorter), as produced
by the chunking loop.  `step = 0` would make Python `range` raise; the model
returns no chunks there and every claim assumes `0 < step`. -/
def chunkTable (step : Nat) : List (List String) → List (List (List String))
  | [] => []
  | r :: rs =>
    match step with
    | 0 => []
    | s + 1 => ((r :: rs).take (s + 1)) :: chunkTable step (rs.drop s)
termination_by rows => rows.length
decreasing_by
  simp only [List.length_cons, List.length_drop]
  omega

/-! ## Deduplication (`combine`, `src/o3/kpi_agent.py`). -/

/-- The record schema returned by the LLM (`KPIRecord`); the float value is
an exact rational, `none` for `nan`. -/
structure KPIRecord where
  name : String
  value : Option ℚ
  header : String
  row : Int
  col : Int
  deriving DecidableEq, Repr

/-- The dict key `(rec["name"].lower(), rec["header"])`. -/
def recKey (r : KPIRecord) : String × String := (lowerStr r.name, r.header)

/-- One step of the dedup loop: `if key not in unique: unique[key] = rec`,
on the insertion-ordered association list modelling the Python dict. -/
def combineInsert (u : List ((String × String) × KPIRecord)) (rec : KPIRecord) :
    List ((String × String) × KPIRecord) :=
  if u.any (fun p => decide (p.1 = recKey rec)) then u else u ++ [(recKey rec, rec)]

/-- `combine`: deduplicate by `(name.lower(), header)` keeping the first
occurrence, returning `list(unique.values())`. -/
def combine (l : List KPIRecord) : List KPIRecord :=
  (l.foldl combineInsert []).map Prod.snd

/-! ## Verification-graph numeric normalization
(`_normalize_number_string` and `cross_reference_checker`,
`src/o3/kpi_agent.py`). -/

/-- Whether the cleaned string ends in a percent sign. -/
def endsWithPercent (s : String) : Bool :=
  s.data.getLast? == some '%'

/-- The string without its final character (`s[:-1]`). -/
def dropLastChar (s : String) : String := String.mk s.data.dropLast

/-- Divide an exact rational by 100, computed on the representation;
`div100_eq` below shows it is `q / 100`. -/
def div100 (q : ℚ) : ℚ := mkRat q.num (q.den * 100)

/-- The division agrees with the field operation `q / 100`. -/
theorem div100_eq (q : ℚ) : div100 q = q / 100 := by
  rw [div100, Rat.mkRat_eq_div]
  push_cast
  rw [div_mul_eq_div_div]
  congr 1
  exact Rat.num_div_den q

/-- `_normalize_number_string`: strip whitespace, thousands separators and
dollar signs, honour a trailing percent sign by dividing by 100; `none`
models the `ValueError` path returning `math.nan`. -/
def normalize_number_string (s : String) : Option ℚ :=
  let cleaned := stripDollars (stripCommas (trimStr s))
  if endsWithPercent cleaned then
    (parseDecimal (dropLastChar cleaned)).map div100
  else
    parseDecimal cleaned

/-- The default tolerance `1e-6` of `cross_reference_checker`. -/
def crossRefTol : ℚ := mkRat 1 1000000

/-- The value-comparison step of `cross_reference_checker` for one record:
`true` when a mismatch issue is appended.  `none` models a `nan` value on
either side (NaN-vs-NaN is a match, NaN-vs-number a mismatch). -/
def crossValueMismatch (extracted source : Option ℚ) : Bool :=
  match extracted, source with
  | none, none => false
  | none, some _ => true
  | some _, none => true
  | some a, some b => crossRefTol < ratAbsDiff a b

/-- The Tier-2 half of the report list: what follows the Tier-1 emissions,
depending on the load outcome. -/
def tier2Suffix (svs : List KpiData) (loadRes : Except String (List Sheet)) :
    List ValidatedKpi :=
  match loadRes with
  | Except.error e => svs.map (loadErrorEntry e)
  | Except.ok sheets => svs.map (tier2Entry sheets)

/-! ## Helper lemmas. -/

theorem mem_setInsert_self (acc : List String) (s : String) : s ∈ setInsert acc s := by
  unfold setInsert
  split
  · assumption
  · simp

theorem mem_setInsert_of_mem (acc : List String) (s x : String) (h : x ∈ acc) :
    x ∈ setInsert acc s := by
  unfold setInsert
  split
  · exact h
  · exact List.mem_append_left _ h

theorem mem_addAll_of_mem_acc (xs : List String) :
    ∀ (acc : List String) (x : String), x ∈ acc → x ∈ addAll acc xs := by
  induction xs with
  | nil => intro acc x h; exact h
  | cons y t ih =>
    intro acc x h
    exact ih (setInsert acc y) x (mem_setInsert_of_mem acc y x h)

theorem mem_addAll_of_mem (xs : List String) :
    ∀ (acc : List String) (x : String), x ∈ xs → x ∈ addAll acc xs := by
  induction xs with
  | nil => intro acc x h; cases h
  | cons y t ih =>
    intro acc x h
    rcases List.mem_cons.mp h with rfl | hx
    · exact mem_addAll_of_mem_acc t (setInsert acc x) x (mem_setInsert_self acc x)
    · exact ih (setInsert acc y) x hx

theorem mem_targets_fold_of_mem_acc (sheet : Sheet) (targets : List String) :
    ∀ (acc : List String) (x : String), x ∈ acc →
      x ∈ targets.foldl (fun a t => addAll a (scanTargetInSheet sheet t)) acc := by
  induction targets with
  | nil => intro acc x h; exact h
  | cons t ts ih =>
    intro acc x h
    exact ih _ x (mem_addAll_of_mem_acc _ acc x h)

theorem mem_targets_fold_of_scan (sheet : Sheet) (targets : List String)
    (target : String) (ht : target ∈ targets) :
    ∀ (acc : List String) (x : String), x ∈ scanTargetInSheet sheet target →
      x ∈ targets.foldl (fun a t => addAll a (scanTargetInSheet sheet t)) acc := by
  induction targets with
  | nil => cases ht
  | cons t ts ih =>
    intro acc x hx
    simp only [List.foldl_cons]
    rcases List.mem_cons.mp ht with rfl | ht2
    · exact mem_targets_fold_of_mem_acc sheet ts _ x (mem_addAll_of_mem _ acc x hx)
    · exact ih ht2 _ x hx

theorem mem_sheets_fold_of_mem_acc (targets : List String) (sheets : List Sheet) :
    ∀ (acc : List String) (x : String), x ∈ acc →
      x ∈ sheets.foldl
            (fun acc sh => targets.foldl (fun a t => addAll a (scanTargetInSheet sh t)) acc)
            acc := by
  induction sheets with
  | nil => intro acc x h; exact h
  | cons s ss ih =>
    intro acc x h
    exact ih _ x (mem_targets_fold_of_mem_acc s targets acc x h)

theorem mem_potentialValues_aux (targets : List String) (sheets : List Sheet)
    (sheet : Sheet) (hs : sheet ∈ sheets) (target : String) (ht : target ∈ targets)
    (x : String) (hx : x ∈ scanTargetInSheet sheet target) :
    ∀ acc : List String,
      x ∈ sheets.foldl
            (fun acc sh => targets.foldl (fun a t => addAll a (scanTargetInSheet sh t)) acc)
            acc := by
  induction sheets with
  | nil => cases hs
  | cons s ss ih =>
    intro acc
    rcases List.mem_cons.mp hs with rfl | hs2
    · exact mem_sheets_fold_of_mem_acc targets ss _ x
        (mem_targets_fold_of_scan sheet targets target ht acc x hx)
    · exact ih hs2 _

theorem mem_potentialValues (targets : List String) (sheets : List Sheet)
    (sheet : Sheet) (hs : sheet ∈ sheets) (target : String) (ht : target ∈ targets)
    (x : String) (hx : x ∈ scanTargetInSheet sheet target) :
    x ∈ potentialValues sheets targets :=
  mem_potentialValues_aux targets sheets sheet hs target ht x hx []

theorem findLabelRowIdxAux_spec (target : String) :
    ∀ (sheet : Sheet) (j i : Nat), findLabelRowIdxAux target j sheet = some i →
      j ≤ i ∧ ∃ row, sheet.get? (i - j) = some row ∧ rowHasLabel row target = true := by
  intro sheet
  induction sheet with
  | nil => intro j i h; cases h
  | cons row rest ih =>
    intro j i h
    rw [findLabelRowIdxAux] at h
    split at h
    · cases h
      refine ⟨Nat.le_refl _, row, ?_, by assumption⟩
      simp
    · obtain ⟨hle, r2, hget, hlab⟩ := ih (j + 1) i h
      refine ⟨Nat.le_of_succ_le hle, r2, ?_, hlab⟩
      have hij : i - j = (i - (j + 1)) + 1 := by omega
      rw [hij]
      simpa using hget

theorem findLabelRowIdx_spec (sheet : Sheet) (target : String) (i : Nat)
    (h : findLabelRowIdx sheet target = some i) :
    ∃ row, sheet.get? i = some row ∧ rowHasLabel row target = true := by
  obtain ⟨-, row, hget, hlab⟩ := findLabelRowIdxAux_spec target sheet 0 i h
  exact ⟨row, by simpa using hget, hlab⟩

theorem tier1Status_cases (k : KpiData) :
    tier1Status k = "Valid" ∨ tier1Status k = "INVALID_STRUCTURE" := by
  rw [tier1Status]
  split
  · exact Or.inl rfl
  · exact Or.inr rfl

theorem tier1Notes_eq_nil (k : KpiData) :
    tier1Notes k = [] ↔
      (strFieldBad k.kpi = false ∧ valueNote k.value = none ∧ strFieldBad k.period = false
        ∧ posIntBad k.rowNumber = false ∧ posIntBad k.columnNumber = false) := by
  rw [tier1Notes]
  cases h1 : strFieldBad k.kpi <;> cases h2 : valueNote k.value <;>
    cases h3 : strFieldBad k.period <;> cases h4 : posIntBad k.rowNumber <;>
    cases h5 : posIntBad k.columnNumber <;> simp

theorem tier1Status_invalid_iff (k : KpiData) :
    tier1Status k = "INVALID_STRUCTURE" ↔ tier1Notes k ≠ [] := by
  rw [tier1Status]
  split
  · rename_i h
    simp only [beq_iff_eq] at h
    constructor
    · intro hc; exact absurd hc (by decide)
    · intro hc; exact absurd h hc
  · rename_i h
    simp only [beq_iff_eq] at h
    exact iff_of_true rfl h

theorem tier1Pass_eq (l : List KpiData) :
    tier1Pass l
      = ((l.filter (fun k => tier1Status k == "INVALID_STRUCTURE")).map mkInvalidEntry,
          l.filter (fun k => tier1Status k == "Valid")) := by
  induction l with
  | nil => rfl
  | cons k rest ih =>
    rw [tier1Pass, ih]
    by_cases h : tier1Status k = "INVALID_STRUCTURE"
    · have hvalid : (tier1Status k == "Valid") = false := by
        simp [h]
      simp [h, hvalid, List.filter_cons]
    · have hval : tier1Status k = "Valid" := (tier1Status_cases k).resolve_right h
      have hinv : (tier1Status k == "INVALID_STRUCTURE") = false := by
        simp [hval]
      simp [hval, hinv, List.filter_cons]

theorem tier2Lookup_eq_none (r c : Nat) :
    ∀ sheets : List Sheet, (∀ s ∈ sheets, cellAt s r c = none) →
      tier2Lookup r c sheets = none := by
  intro sheets
  induction sheets with
  | nil => intro _; rfl
  | cons s rest ih =>
    intro h
    rw [tier2Lookup, h s (List.mem_cons_self s rest)]
    exact ih fun t ht => h t (List.mem_cons_of_mem s ht)

theorem tier2Lookup_found (r c : Nat) (cv : Cell) :
    ∀ (pre : List Sheet) (s : Sheet) (post : List Sheet),
      (∀ t ∈ pre, cellAt t r c = none) → cellAt s r c = some cv →
      tier2Lookup r c (pre ++ s :: post) = some cv := by
  intro pre
  induction pre with
  | nil =>
    intro s post _ hs
    rw [List.nil_append, tier2Lookup, hs]
  | cons t rest ih =>
    intro s post hpre hs
    rw [List.cons_append, tier2Lookup, hpre t (List.mem_cons_self t rest)]
    exact ih s post (fun u hu => hpre u (List.mem_cons_of_mem t hu)) hs

theorem tier2Entry_validated_iff (sheets : List Sheet) (k : KpiData) :
    (tier2Entry sheets k).validated = true
      ↔ (tier2Entry sheets k).validationStatus = "Valid" := by
  rw [tier2Entry]
  cases hL : tier2Lookup (rowNatOf k) (colNatOf k) sheets with
  | none => simp
  | some cell =>
    cases cell with
    | none => simp
    | some v =>
      simp only [compareCell]
      split
      · simp
      · split
        · split
          · simp
          · simp
        · simp

theorem combine_go_filter (k : String × String) :
    ∀ (l : List KPIRecord) (u : List ((String × String) × KPIRecord)),
      (∀ p ∈ u, p.1 = recKey p.2) →
      ((l.foldl combineInsert u).map Prod.snd).filter (fun r => decide (recKey r = k))
        = (u.map Prod.snd).filter (fun r => decide (recKey r = k))
          ++ (if u.any (fun p => decide (p.1 = k)) then []
              else (l.find? (fun r => decide (recKey r = k))).toList) := by
  intro l
  induction l with
  | nil =>
    intro u hu
    simp [List.find?]
  | cons x xs ih =>
    intro u hu
    rw [List.foldl_cons, combineInsert]
    by_cases hmem : u.any (fun p => decide (p.1 = recKey x)) = true
    · rw [if_pos hmem, ih u hu]
      by_cases hk : recKey x = k
      · have hany : u.any (fun p => decide (p.1 = k)) = true := by
          rw [← hk]; exact hmem
        rw [if_pos hany, if_pos hany]
      · rw [List.find?]
        have : (decide (recKey x = k)) = false := by simp [hk]
        rw [this]
    · rw [if_neg hmem]
      have hu2 : ∀ p ∈ u ++ [(recKey x, x)], p.1 = recKey p.2 := by
        intro p hp
        rcases List.mem_append.mp hp with h | h
        · exact hu p h
        · simp at h; rw [h]
      rw [ih (u ++ [(recKey x, x)]) hu2]
      rw [List.map_append, List.filter_append]
      simp only [List.map_cons, List.map_nil, List.filter, List.any_append]
      by_cases hk : recKey x = k
      · have hanyu : u.any (fun p => decide (p.1 = k)) = false := by
          rw [← hk]
          exact Bool.eq_false_iff.mpr hmem
        have hxk : decide (recKey x = k) = true := by simp [hk]
        simp only [hanyu, hxk, List.any_cons, List.any_nil, List.find?]
        simp [List.append_assoc]
      · have hxk : decide (recKey x = k) = false := by simp [hk]
        simp only [hxk, List.any_cons, List.any_nil, List.find?]
        cases hu3 : u.any (fun p => decide (p.1 = k)) <;> simp [hu3]

theorem chunkTable_flatten_aux (s : Nat) :
    ∀ (n : Nat) (rows : List (List String)), rows.length ≤ n →
      (chunkTable (s + 1) rows).flatten = rows := by
  intro n
  induction n with
  | zero =>
    intro rows h
    match rows with
    | [] => simp [chunkTable]
    | r :: rs => simp at h
  | succ n ih =>
    intro rows h
    match rows with
    | [] => simp [chunkTable]
    | r :: rs =>
      rw [chunkTable]
      simp only [List.flatten_cons]
      have hlen : (rs.drop s).length ≤ n := by
        simp only [List.length_drop]
        simp only [List.length_cons] at h
        omega
      rw [ih (rs.drop s) hlen]
      have hdrop : rs.drop s = (r :: rs).drop (s + 1) := List.drop_succ_cons.symm
      rw [hdrop, List.take_append_drop]

theorem report_kpis_decomposition (records : List KpiData)
    (loadRes : Except String (List Sheet)) (targets : List String) :
    (validateKpiData records loadRes targets).validatedKpis
      = (records.filter (fun k => tier1Status k == "INVALID_STRUCTURE")).map mkInvalidEntry
        ++ tier2Suffix (records.filter (fun k => tier1Status k == "Valid")) loadRes := by
  rw [validateKpiData, tier1Pass_eq]
  by_cases h : (records.filter (fun k => tier1Status k == "Valid")).isEmpty
  · have h2 : records.filter (fun k => tier1Status k == "Valid") = [] :=
      List.isEmpty_iff.mp h
    rw [h2]
    cases loadRes <;> simp [tier2Suffix]
  · cases loadRes <;> simp [tier2Suffix, h]

/-! ## Claim theorems. -/

/-- C9: for every normalized table and every positive rows-per-chunk bound,
the chunker's chunks concatenate back to exactly the table's row sequence —
same order, no duplicates, no gaps. -/
theorem chunker_coverage (step : Nat) (rows : List (List String)) (h : 0 < step) :
    (chunkTable step rows).flatten = rows := by
  obtain ⟨s, rfl⟩ : ∃ s, step = s + 1 := ⟨step - 1, by omega⟩
  exact chunkTable_flatten_aux s rows.length rows (Nat.le_refl _)

/-- Witness for C9 at bound 2 over a three-row table. -/
theorem chunker_coverage_witness :
    0 < 2 ∧ (chunkTable 2 [["a"], ["b"], ["c"]]).flatten = [["a"], ["b"], ["c"]] :=
  ⟨by decide, chunker_coverage 2 [["a"], ["b"], ["c"]] (by decide)⟩

/-- C6: deduplication keyed by (lower-cased KPI name, verbatim header)
keeps, for each key, exactly the record that appeared first in input order
and silently discards all later duplicates: the deduplicated list restricted
to any key equals the first input occurrence for that key. -/
theorem dedup_keeps_first_occurrence (l : List KPIRecord) (k : String × String) :
    (combine l).filter (fun r => decide (recKey r = k))
      = (l.find? (fun r => decide (recKey r = k))).toList := by
  have h := combine_go_filter k l [] (by intro p hp; cases hp)
  simpa [combine] using h

/-- C5: cross-reference normalization strips commas and dollar signs and,
when the cleaned source string ends in a percent sign, divides its numeric
value by 100; consequently source "12.5%" against extracted 0.125 produces
no mismatch issue. -/
theorem percentage_normalization_match :
    (∀ (s : String) (q : ℚ),
        endsWithPercent (stripDollars (stripCommas (trimStr s))) = true →
        parseDecimal (dropLastChar (stripDollars (stripCommas (trimStr s)))) = some q →
        normalize_number_string s = some (q / 100))
    ∧ normalize_number_string "12.5%" = some (mkRat 1 8)
    ∧ normalize_number_string "$1,000" = some (mkRat 1000 1)
    ∧ crossValueMismatch (some (mkRat 1 8)) (normalize_number_string "12.5%") = false := by
  refine ⟨?_, by decide, by decide, by decide⟩
  intro s q hp hq
  simp only [normalize_number_string]
  rw [if_pos hp, hq]
  simp [div100_eq]

/-- Witness for C5 at the percentage string "12.5%". -/
theorem percentage_normalization_match_witness :
    endsWithPercent (stripDollars (stripCommas (trimStr "12.5%"))) = true
    ∧ normalize_number_string "12.5%" = some (mkRat 25 2 / 100) :=
  ⟨by decide,
   percentage_normalization_match.1 "12.5%" (mkRat 25 2) (by decide) (by decide)⟩

/-- C2 counterexample: a record whose value is the string "12.5%" and whose
other fields are well-formed is INVALID_STRUCTURE — the Tier-1 value check
strips thousands separators but not a trailing percent sign. -/
theorem percent_value_invalid_structure :
    tier1Status ⟨some (pyStr "Revenue"), some (pyStr "12.5%"), some (pyStr "2023Q1"),
        none, some (pyInt 1), some (pyInt 2)⟩ = "INVALID_STRUCTURE"
    ∧ strFieldBad (some (pyStr "Revenue")) = false
    ∧ strFieldBad (some (pyStr "2023Q1")) = false
    ∧ posIntBad (some (pyInt 1)) = false
    ∧ posIntBad (some (pyInt 2)) = false
    ∧ valueNote (some (pyStr "12.5%")) = some "Value is not a valid number format." := by
  decide

/-- C2 (amended): Tier-1 marks a record INVALID_STRUCTURE exactly when one
of the five checks fails, where the value check accepts values coercible to
a number after stripping thousands separators only (no percent handling). -/
theorem structural_invalid_iff_checks_fail (k : KpiData) :
    tier1Status k = "INVALID_STRUCTURE"
      ↔ (strFieldBad k.kpi = true ∨ (valueNote k.value).isSome = true
          ∨ strFieldBad k.period = true ∨ posIntBad k.rowNumber = true
          ∨ posIntBad k.columnNumber = true) := by
  rw [tier1Status_invalid_iff, Ne, tier1Notes_eq_nil]
  constructor
  · intro h
    by_contra hr
    push_neg at hr
    obtain ⟨h1, h2, h3, h4, h5⟩ := hr
    exact h ⟨Bool.eq_false_iff.mpr h1, Option.not_isSome_iff_eq_none.mp h2,
      Bool.eq_false_iff.mpr h3, Bool.eq_false_iff.mpr h4, Bool.eq_false_iff.mpr h5⟩
  · intro h hc
    obtain ⟨h1, h2, h3, h4, h5⟩ := hc
    rcases h with h | h | h | h | h
    · rw [h1] at h; cases h
    · rw [h2] at h; cases h
    · rw [h3] at h; cases h
    · rw [h4] at h; cases h
    · rw [h5] at h; cases h

/-- C1 counterexample: with target "Revenue" whose label sits in row index 0
and a row of numbers directly below it, the potential set contains the label
row's own number "100" and neither numeric cell "200"/"300" of the row
immediately following — refuting the claim that the following row is
scanned. -/
theorem scan_following_row_refuted :
    findLabelRowIdx [[some (pyStr "Revenue"), some (pyInt 100)],
        [some (pyInt 200), some (pyInt 300)]] "Revenue" = some 0
    ∧ numericCellStrings (sheetRow1 [[some (pyStr "Revenue"), some (pyInt 100)],
        [some (pyInt 200), some (pyInt 300)]] 2) = ["200", "300"]
    ∧ potentialValues [[[some (pyStr "Revenue"), some (pyInt 100)],
        [some (pyInt 200), some (pyInt 300)]]] ["Revenue"] = ["100"]
    ∧ ¬ ("200" ∈ potentialValues [[[some (pyStr "Revenue"), some (pyInt 100)],
        [some (pyInt 200), some (pyInt 300)]]] ["Revenue"]) := by
  decide

/-- C1 (amended): for every target KPI whose label is found
(case-insensitive, first textual match) in a row of a source sheet, the
unextracted-numbers scan collects every numeric-looking cell of that label
row itself (`sheet[kpi_row_index + 1]` with a 0-based `kpi_row_index` is the
label row) as a potential value. -/
theorem scan_collects_from_label_row (sheets : List Sheet) (targets : List String)
    (sheet : Sheet) (target : String) (i : Nat)
    (hs : sheet ∈ sheets) (ht : target ∈ targets)
    (hf : findLabelRowIdx sheet target = some i) :
    rowHasLabel (rowAt0 sheet i) target = true
    ∧ scanTargetInSheet sheet target = numericCellStrings (rowAt0 sheet i)
    ∧ ∀ v ∈ numericCellStrings (rowAt0 sheet i), v ∈ potentialValues sheets targets := by
  obtain ⟨row, hget, hlab⟩ := findLabelRowIdx_spec sheet target i hf
  have hrow : rowAt0 sheet i = row := by rw [rowAt0, hget]; rfl
  have hscan : scanTargetInSheet sheet target = numericCellStrings (rowAt0 sheet i) := by
    simp only [scanTargetInSheet, hf, sheetRow1, rowAt0, Nat.add_sub_cancel]
  refine ⟨by rw [hrow]; exact hlab, hscan, ?_⟩
  intro v hv
  refine mem_potentialValues targets sheets sheet hs target ht v ?_
  rw [hscan]
  exact hv

/-- Witness for C1 (amended) on a one-sheet, one-target instance. -/
theorem scan_collects_from_label_row_witness :
    rowHasLabel (rowAt0 [[some (pyStr "Revenue"), some (pyInt 100)]] 0) "Revenue" = true
    ∧ scanTargetInSheet [[some (pyStr "Revenue"), some (pyInt 100)]] "Revenue"
        = numericCellStrings (rowAt0 [[some (pyStr "Revenue"), some (pyInt 100)]] 0)
    ∧ ∀ v ∈ numericCellStrings (rowAt0 [[some (pyStr "Revenue"), some (pyInt 100)]] 0),
        v ∈ potentialValues [[[some (pyStr "Revenue"), some (pyInt 100)]]] ["Revenue"] :=
  scan_collects_from_label_row [[[some (pyStr "Revenue"), some (pyInt 100)]]] ["Revenue"]
    [[some (pyStr "Revenue"), some (pyInt 100)]] "Revenue" 0
    (by simp) (by simp) (by decide)

/-- C3: for a structurally valid record, a claimed address present in no
sheet yields LOCATION_NOT_FOUND_IN_SOURCE; when the first sheet where the
address exists holds an empty cell the status is VALUE_MISSING_IN_SOURCE;
and the iteration stops at the first sheet where a cell exists at the
address (later sheets cannot change the outcome). -/
theorem tier2_location_outcomes (k : KpiData) (pre post : List Sheet) (s : Sheet)
    (hvalid : tier1Status k = "Valid")
    (hpre : ∀ t ∈ pre, cellAt t (rowNatOf k) (colNatOf k) = none) :
    (tier2Entry pre k).validationStatus = "LOCATION_NOT_FOUND_IN_SOURCE"
    ∧ (cellAt s (rowNatOf k) (colNatOf k) = some none →
        (tier2Entry (pre ++ s :: post) k).validationStatus = "VALUE_MISSING_IN_SOURCE"
        ∧ (tier2Entry (pre ++ s :: post) k).validated = false)
    ∧ (∀ cv : Cell, cellAt s (rowNatOf k) (colNatOf k) = some cv →
        tier2Entry (pre ++ s :: post) k = tier2Entry (pre ++ [s]) k) := by
  refine ⟨?_, ?_, ?_⟩
  · rw [tier2Entry, tier2Lookup_eq_none _ _ pre hpre]
  · intro h
    rw [tier2Entry, tier2Lookup_found _ _ none pre s post hpre h]
    exact ⟨rfl, rfl⟩
  · intro cv h
    rw [tier2Entry, tier2Lookup_found _ _ cv pre s post hpre h,
      tier2Entry, tier2Lookup_found _ _ cv pre s [] hpre h]

/-- Witness for C3: an empty sheet (address absent) followed by a sheet
whose only cell is empty. -/
theorem tier2_location_outcomes_witness :
    (tier2Entry [[]] ⟨some (pyStr "Revenue"), some (pyInt 5), some (pyStr "Q1"),
        none, some (pyInt 1), some (pyInt 1)⟩).validationStatus
      = "LOCATION_NOT_FOUND_IN_SOURCE"
    ∧ (tier2Entry ([[]] ++ [[none]] :: []) ⟨some (pyStr "Revenue"), some (pyInt 5),
        some (pyStr "Q1"), none, some (pyInt 1), some (pyInt 1)⟩).validationStatus
      = "VALUE_MISSING_IN_SOURCE" :=
  ⟨(tier2_location_outcomes ⟨some (pyStr "Revenue"), some (pyInt 5), some (pyStr "Q1"),
      none, some (pyInt 1), some (pyInt 1)⟩ [[]] [] [[none]] (by decide) (by decide)).1,
   ((tier2_location_outcomes ⟨some (pyStr "Revenue"), some (pyInt 5), some (pyStr "Q1"),
      none, some (pyInt 1), some (pyInt 1)⟩ [[]] [] [[none]] (by decide) (by decide)).2.1
      (by decide)).1⟩

/-- C4 counterexample: extracted 0 against source "0.000000001" differ by
exactly the tolerance 1e-9 — "at most the tolerance" in the claim's words —
yet the status is VALUE_MISMATCH, because the code accepts only a strictly
smaller difference. -/
theorem tier2_tolerance_boundary_refuted :
    parseDecimal (extractedValueStr ⟨some (pyStr "Revenue"), some (pyInt 0),
        some (pyStr "2023Q1"), none, some (pyInt 1), some (pyInt 1)⟩) = some (mkRat 0 1)
    ∧ parseDecimal "0.000000001" = some tol9
    ∧ ratAbsDiff (mkRat 0 1) tol9 = tol9
    ∧ (tier2Entry [[[some (pyStr "0.000000001")]]]
        ⟨some (pyStr "Revenue"), some (pyInt 0), some (pyStr "2023Q1"), none,
          some (pyInt 1), some (pyInt 1)⟩).validationStatus = "VALUE_MISMATCH"
    ∧ (tier2Entry [[[some (pyStr "0.000000001")]]]
        ⟨some (pyStr "Revenue"), some (pyInt 0), some (pyStr "2023Q1"), none,
          some (pyInt 1), some (pyInt 1)⟩).validationStatus ≠ "Valid" := by
  decide

/-- C4 (amended): for a structurally valid record whose claimed cell is
found non-empty, equal comma-stripped strings give Valid; when both sides
parse as numbers, a difference strictly below 1e-9 gives Valid and a
difference of 1e-9 or more gives VALUE_MISMATCH with a note carrying
expected vs. got and the coordinate; in particular extracted 100000 against
source "100,000.0000000001" is Valid and against 100001 is VALUE_MISMATCH. -/
theorem tier2_numeric_comparison (k : KpiData) (sheets : List Sheet) (v : PyVal)
    (hvalid : tier1Status k = "Valid")
    (hfound : tier2Lookup (rowNatOf k) (colNatOf k) sheets = some (some v)) :
    ((extractedValueStr k = stripCommas (pyStrRepr v) →
        (tier2Entry sheets k).validationStatus = "Valid"
        ∧ (tier2Entry sheets k).validated = true)
    ∧ (∀ a b : ℚ, parseDecimal (extractedValueStr k) = some a →
        parseDecimal (stripCommas (pyStrRepr v)) = some b →
        ((|a - b| < tol9 →
            (tier2Entry sheets k).validationStatus = "Valid"
            ∧ (tier2Entry sheets k).validated = true)
         ∧ (tol9 ≤ |a - b| →
            (tier2Entry sheets k).validationStatus = "VALUE_MISMATCH"
            ∧ (tier2Entry sheets k).validated = false
            ∧ mismatchNote (stripCommas (pyStrRepr v)) (extractedValueStr k)
                (rowNatOf k) (colNatOf k) ∈ (tier2Entry sheets k).notes))))
    ∧ (tier2Entry [[[some (pyStr "100,000.0000000001")]]]
        ⟨some (pyStr "Revenue"), some (pyInt 100000), some (pyStr "2023Q1"), none,
          some (pyInt 1), some (pyInt 1)⟩).validationStatus = "Valid"
    ∧ (tier2Entry [[[some (pyInt 100001)]]]
        ⟨some (pyStr "Revenue"), some (pyInt 100000), some (pyStr "2023Q1"), none,
          some (pyInt 1), some (pyInt 1)⟩).validationStatus = "VALUE_MISMATCH" := by
  have he : tier2Entry sheets k = compareCell k v := by
    rw [tier2Entry, hfound]
  refine ⟨⟨?_, ?_⟩, by decide, by decide⟩
  · intro hes
    rw [he]
    simp only [compareCell]
    rw [if_pos (beq_iff_eq.mpr hes)]
    exact ⟨rfl, rfl⟩
  · intro a b ha hb
    constructor
    · intro hlt
      by_cases hes : extractedValueStr k = stripCommas (pyStrRepr v)
      · rw [he]
        simp only [compareCell]
        rw [if_pos (beq_iff_eq.mpr hes)]
        exact ⟨rfl, rfl⟩
      · rw [he]
        simp only [compareCell]
        have hcond : ratAbsDiff a b < tol9 := by rw [ratAbsDiff_eq_abs]; exact hlt
        simp [hes, ha, hb, hcond]
    · intro hge
      have hes : ¬ (extractedValueStr k = stripCommas (pyStrRepr v)) := by
        intro he2
        rw [he2, hb] at ha
        obtain rfl : b = a := Option.some.inj ha
        rw [sub_self, abs_zero] at hge
        exact absurd hge (by decide)
      rw [he]
      simp only [compareCell]
      have hcond : ¬ (ratAbsDiff a b < tol9) := by
        rw [ratAbsDiff_eq_abs]; exact not_lt.mpr hge
      simp [hes, ha, hb, hcond]

/-- Witness for C4 on an exact match of value 7. -/
theorem tier2_numeric_comparison_witness :
    (tier2Entry [[[some (pyInt 7)]]] ⟨some (pyStr "Revenue"), some (pyInt 7),
        some (pyStr "Q1"), none, some (pyInt 1), some (pyInt 1)⟩).validationStatus = "Valid"
    ∧ (tier2Entry [[[some (pyInt 7)]]] ⟨some (pyStr "Revenue"), some (pyInt 7),
        some (pyStr "Q1"), none, some (pyInt 1), some (pyInt 1)⟩).validated = true :=
  (tier2_numeric_comparison ⟨some (pyStr "Revenue"), some (pyInt 7), some (pyStr "Q1"),
      none, some (pyInt 1), some (pyInt 1)⟩ [[[some (pyInt 7)]]] (pyInt 7)
      (by decide) (by decide)).1.1 (by decide)

/-- C7: the report is exactly the Tier-1 invalid emissions — in input
order, with validated=false and one note per failing check, built without
any reference to the source file — followed by the Tier-2 phase on the
structurally valid records only. -/
theorem tier_separation (records : List KpiData) (loadRes : Except String (List Sheet))
    (targets : List String) :
    (validateKpiData records loadRes targets).validatedKpis
      = (records.filter (fun k => tier1Status k == "INVALID_STRUCTURE")).map mkInvalidEntry
        ++ tier2Suffix (records.filter (fun k => tier1Status k == "Valid")) loadRes
    ∧ (∀ k : KpiData, tier1Status k = "INVALID_STRUCTURE" →
        (mkInvalidEntry k).validated = false
        ∧ (mkInvalidEntry k).validationStatus = "INVALID_STRUCTURE"
        ∧ (mkInvalidEntry k).notes = tier1Notes k
        ∧ tier1Notes k ≠ []) := by
  constructor
  · exact report_kpis_decomposition records loadRes targets
  · intro k hk
    exact ⟨rfl, rfl, rfl, (tier1Status_invalid_iff k).mp hk⟩

/-- Witness for C7 on a single all-missing record. -/
theorem tier_separation_witness :
    (validateKpiData [⟨none, none, none, none, none, none⟩]
        (Except.ok []) []).validatedKpis
      = ([⟨none, none, none, none, none, none⟩].filter
          (fun k => tier1Status k == "INVALID_STRUCTURE")).map mkInvalidEntry
        ++ tier2Suffix ([(⟨none, none, none, none, none, none⟩ : KpiData)].filter
          (fun k => tier1Status k == "Valid")) (Except.ok [])
    ∧ (mkInvalidEntry ⟨none, none, none, none, none, none⟩).validated = false :=
  ⟨(tier_separation [⟨none, none, none, none, none, none⟩] (Except.ok []) []).1,
   ((tier_separation [⟨none, none, none, none, none, none⟩] (Except.ok []) []).2
      ⟨none, none, none, none, none, none⟩ (by decide)).1⟩

/-- C8: when the source file fails to load, validation is non-fatal: every
pending structurally valid record is emitted with status FILE_LOAD_ERROR,
validated=false and an explanatory note, the scan is skipped (no
unextracted numbers), and the report is still returned. -/
theorem load_error_marks_all_pending (records : List KpiData) (e : String)
    (targets : List String) :
    validateKpiData records (Except.error e) targets
      = { validatedKpis :=
            (records.filter (fun k => tier1Status k == "INVALID_STRUCTURE")).map mkInvalidEntry
              ++ (records.filter (fun k => tier1Status k == "Valid")).map (loadErrorEntry e)
          unextractedNumbers := [] }
    ∧ ∀ k : KpiData,
        (loadErrorEntry e k).validationStatus = "FILE_LOAD_ERROR"
        ∧ (loadErrorEntry e k).validated = false
        ∧ (loadErrorEntry e k).notes = ["Could not load Excel file: " ++ e] := by
  constructor
  · rw [validateKpiData, tier1Pass_eq]
    by_cases h : (records.filter (fun k => tier1Status k == "Valid")).isEmpty
    · have h2 : records.filter (fun k => tier1Status k == "Valid") = [] :=
        List.isEmpty_iff.mp h
      rw [h2]
      simp
    · simp [h]
  · intro k
    exact ⟨rfl, rfl, rfl⟩

/-- C10: every record in the validator's report satisfies
validated = (validation_status == "Valid"), whatever status the validator
assigned. -/
theorem validated_iff_status_valid (records : List KpiData)
    (loadRes : Except String (List Sheet)) (targets : List String)
    (entry : ValidatedKpi)
    (h : entry ∈ (validateKpiData records loadRes targets).validatedKpis) :
    entry.validated = true ↔ entry.validationStatus = "Valid" := by
  rw [report_kpis_decomposition records loadRes targets] at h
  have hinv : ∀ k : KpiData, entry = mkInvalidEntry k →
      (entry.validated = true ↔ entry.validationStatus = "Valid") := by
    intro k hk
    rw [hk]
    exact iff_of_false (by simp [mkInvalidEntry]) (by simp [mkInvalidEntry])
  rcases List.mem_append.mp h with h2 | h2
  · obtain ⟨k, -, hk⟩ := List.mem_map.mp h2
    exact hinv k hk.symm
  · cases loadRes with
    | error e =>
      simp only [tier2Suffix] at h2
      obtain ⟨k, -, hk⟩ := List.mem_map.mp h2
      rw [← hk]
      exact iff_of_false (by simp [loadErrorEntry]) (by simp [loadErrorEntry])
    | ok sheets =>
      simp only [tier2Suffix] at h2
      obtain ⟨k, -, hk⟩ := List.mem_map.mp h2
      rw [← hk]
      exact tier2Entry_validated_iff sheets k

/-- Witness for C10 on the report entry of an all-missing record. -/
theorem validated_iff_status_valid_witness :
    (mkInvalidEntry ⟨none, none, none, none, none, none⟩).validated = true
      ↔ (mkInvalidEntry ⟨none, none, none, none, none, none⟩).validationStatus = "Valid" :=
  validated_iff_status_valid [⟨none, none, none, none, none, none⟩] (Except.ok []) []
    (mkInvalidEntry ⟨none, none, none, none, none, none⟩) (by decide)

end XlExtraction
